import Mathlib

/-!
Shallow embedding of the `satellite_pull_API` pipeline
(`src/fetch_satellite.py`, `src/fetch_climate.py`, `src/assemble_json.py`).

Floating-point values are modelled by `ℚ`; `None`/NaN series entries are
modelled by `Option ℚ`; Python dicts carrying validated field sets are
modelled by their key lists; functions whose outcome depends on the network
are parameterized by an explicit environment describing the per-attempt
outcomes. Fallible Python code is modelled with `Option`/`Except`.
-/

namespace SatellitePull

/-- Arithmetic mean of a list of rationals; the empty list yields `0`
(in `ℚ`, `0 / 0 = 0`, matching the defensive `else 0` branches of the code). -/
def meanList (xs : List ℚ) : ℚ :=
  xs.sum / (xs.length : ℚ)

/-! ## fetch_climate.py -/

/-- Global names bound at module level by the import statements of
`src/fetch_climate.py` (lines 1-12): `import os`, `import datetime as dt`,
`import openmeteo_requests`, `import pandas as pd`,
`from retry_requests import retry`, `import requests_cache`,
`import numpy as np`, `import logging`, `import logging.handlers`,
`import tomli`, `import rasterio`, `import urllib.parse`.
Note the name `requests` is not among them. -/
def fetch_climate_global_names : List String :=
  ["os", "dt", "openmeteo_requests", "pd", "retry", "requests_cache",
   "np", "logging", "tomli", "rasterio", "urllib"]

/-- NaN substitution applied to each hourly variable in `fetch_openmeteo_data`
(lines 86-92): if the whole series is NaN (`np.all(np.isnan(values))`) it is
replaced by `[0] * len(times)`; otherwise each NaN entry is replaced by `0`
(`np.where(np.isnan(values), 0, values)`). A `none` entry models NaN. -/
def substituteNaN (series : List (Option ℚ)) : List ℚ :=
  if series.all (fun v => v.isNone) then List.replicate series.length 0
  else series.map (fun v => v.getD 0)

/-- The historical-precipitation part of `fetch_openmeteo_data` combined with
the guard of `fetch_climate_data` (lines 94-96 and 226): after NaN
substitution, an empty or all-zero precipitation series makes the primary
tier fail (`historical_data = None`); otherwise the substituted series is
the primary tier's precipitation series. -/
def openmeteoHistoricalPrecip (series : List (Option ℚ)) : Option (List ℚ) :=
  let p := substituteNaN series
  if p.isEmpty || p.all (fun v => v = 0) then none else some p

/-- Outcome of one day's CHIRPS HTTP attempt in `fetch_chirps_data`
(lines 200-212): a response carrying a status code and the downloaded
raster (each cell paired with a flag telling whether it lies inside the
AOI), or an exception raised during the attempt. -/
inductive DayOutcome where
  | response (status : Nat) (raster : List (ℚ × Bool))
  | exn
deriving DecidableEq

/-- The value computed by `fetch_chirps_data` on a successful download
(line 206): `src.read(1).mean() / 24`, the mean of the entire raster
divided by 24. No clipping to the AOI is performed. -/
def chirpsRasterMean (raster : List (ℚ × Bool)) : ℚ :=
  meanList (raster.map Prod.fst) / 24

/-- The bounded backward walk of `fetch_chirps_data` (lines 191-216):
attempt `k` targets the day `k + 1` days before now; a 200 response returns
the raster mean over 24 immediately, any other status or an exception is
logged and the walk moves to the prior day; `fuel` counts the remaining
attempts out of `max_attempts = 30`. -/
def chirpsLoop (env : Nat → DayOutcome) : Nat → Nat → Option ℚ
  | _, 0 => none
  | k, fuel + 1 =>
    match env k with
    | .response s raster =>
        if s = 200 then some (chirpsRasterMean raster) else chirpsLoop env (k + 1) fuel
    | .exn => chirpsLoop env (k + 1) fuel

/-- Model of `fetch_chirps_data` parameterized by the outcome of each day's
HTTP attempt, assuming the name `requests` resolves (the attempt outcomes
are taken at face value from `env`). -/
def fetch_chirps_data (env : Nat → DayOutcome) : Option ℚ :=
  chirpsLoop env 0 30

/-- The day attempt as actually executed by `src/fetch_climate.py`: the body
of the `try` block evaluates `requests.get(url, timeout=30)` (line 201), so
its outcome is `env k` only when the global name `requests` is bound in the
module; otherwise the lookup raises `NameError`, which the
`except Exception` arm catches like any other per-day exception. -/
def dayAttemptActual (env : Nat → DayOutcome) (k : Nat) : DayOutcome :=
  if fetch_climate_global_names.contains "requests" then env k else .exn

/-- `fetch_chirps_data` as actually executed, with module-level name
resolution taken into account. -/
def fetch_chirps_data_actual (env : Nat → DayOutcome) : Option ℚ :=
  chirpsLoop (dayAttemptActual env) 0 30

/-- `fetch_climate_data` (lines 218-242) restricted to its precipitation
result: if the primary tier yields a series, the estimate is its arithmetic
mean (`float(sum(...) / len(...) or 0)`, which equals the mean) and CHIRPS is
not invoked; otherwise CHIRPS is invoked and its result (or the fallback
sentinel `0` when CHIRPS also fails) is the estimate. The second component
records whether `fetch_chirps_data` was invoked. -/
def fetch_climate_data (series : List (Option ℚ)) (chirps : Option ℚ) : ℚ × Bool :=
  match openmeteoHistoricalPrecip series with
  | some p => (meanList p, false)
  | none =>
    match chirps with
    | some c => (c, true)
    | none => (0, true)

/-- Timestamp of Python's `datetime.min` (year 1) with a UTC timezone, as
used for the sentinel key in the current-sample selection (lines 111 and
132); timestamps are modelled as signed epoch seconds. -/
def dtMinInt : Int := -62135596800

/-- Left fold computing Python's `max(range(n), key=...)`: the running best
index is replaced only on a strictly larger key, so the first index
attaining the maximal key wins, exactly as Python's `max` does. -/
def pyArgmaxAux (key : Nat → Int) (l : List Nat) (b : Nat) : Nat :=
  l.foldl (fun best i => if key best < key i then i else best) b

/-- Python's `max(range(n), key=...)` for `n > 0` (for `n = 0` Python would
raise; the model returns `0`). -/
def pyArgmax (key : Nat → Int) (n : Nat) : Nat :=
  pyArgmaxAux key (List.range n) 0

/-- The selection key of lines 111 and 132:
`times[i] if times[i] <= now else dt.datetime.min`. -/
def currentKey (times : List Int) (now : Int) (i : Nat) : Int :=
  if times.getD i 0 ≤ now then times.getD i 0 else dtMinInt

/-- The "current sample" index selection of `fetch_openmeteo_data`
(line 111 for the minutely series, line 132 for the identical hourly
fallback): `max(range(len(times)), key=lambda i: times[i] if times[i] <= now
else datetime.min)`. -/
def currentSelect (times : List Int) (now : Int) : Nat :=
  pyArgmax (currentKey times now) times.length

/-! ## fetch_satellite.py -/

/-- One extracted water feature (the dict built at lines 230-236 of
`fetch_satellite.py`; the `geometry` polygon is omitted, no claim
concerns it). -/
structure WaterBody where
  id : String
  area_m2 : ℚ
  turbidity : ℚ
  chlorophyll : ℚ
deriving DecidableEq

/-- The summary dict built by `fetch_water_data` (lines 260-265); it always
carries exactly these four fields. -/
structure Summary where
  total_water_bodies : Nat
  total_area_m2 : ℚ
  avg_turbidity : ℚ
  avg_chlorophyll : ℚ
deriving DecidableEq

/-- Values of a raster grid at a component's pixels
(`turbidity[pixels]` at line 219): the grid is a list of rows. -/
def pixelValues (grid : List (List ℚ)) (pixels : List (Nat × Nat)) : List ℚ :=
  pixels.map (fun rc => (grid.getD rc.1 []).getD rc.2 0)

/-- Zonal mean with the defensive zero for an empty component
(`np.mean(grid[pixels]) if pixels.any() else 0`, lines 219-220). -/
def meanOrZero (vals : List ℚ) : ℚ :=
  if vals = [] then 0 else meanList vals

/-- Reported component turbidity (lines 219 and 223-225): the zonal mean,
and when it falls outside `[-1, 1]` it is replaced by
`max(0, min(mean_turbidity, 1))`. -/
def componentTurbidity (vals : List ℚ) : ℚ :=
  let m := meanOrZero vals
  if m < -1 ∨ m > 1 then max 0 (min m 1) else m

/-- Reported component chlorophyll (lines 220 and 226-228): the zonal mean,
and when it falls outside `[0, 100]` it is replaced by
`max(0, min(mean_chlorophyll, 100))`. -/
def componentChlorophyll (vals : List ℚ) : ℚ :=
  let m := meanOrZero vals
  if m < 0 ∨ m > 100 then max 0 (min m 100) else m

/-- Result of evaluating Python's builtin `all` on a value that is a single
`bool` rather than an iterable: it raises
`TypeError: bool object is not iterable`. -/
def pyAllOfBool (_b : Bool) : Except String Bool :=
  Except.error "TypeError: bool object is not iterable"

/-- The cached-TIFF condition of `fetch_water_data_for_tile` (lines
109-111): `all(os.path.isfile(f) for f in tiff_files) and
all(validate_tiff(mask) and validate_tiff(turb) and validate_tiff(chl))`.
When the first conjunct is false, `and` short-circuits to `False`; when it
is true, the second operand applies `all` to the single `bool`
`vMask and vTurb and vChl`, which raises. The condition sits outside every
`try` block of the function, so the error propagates. -/
def cacheCondition (filesExist vMask vTurb vChl : Bool) : Except String Bool :=
  if filesExist then pyAllOfBool (vMask && vTurb && vChl) else Except.ok false

/-- The merge step of `fetch_water_data` (lines 244-268): concatenate the
per-tile body lists, sum the per-tile counts, and build the summary, with
the averages defaulting to `0` on an empty combined list. -/
def fetch_water_data (tileResults : List (List WaterBody × Nat)) :
    Summary × List WaterBody :=
  let all_results := (tileResults.map Prod.fst).flatten
  ({ total_water_bodies := (tileResults.map Prod.snd).sum
   , total_area_m2 := (all_results.map WaterBody.area_m2).sum
   , avg_turbidity :=
       if all_results.isEmpty then 0 else meanList (all_results.map WaterBody.turbidity)
   , avg_chlorophyll :=
       if all_results.isEmpty then 0 else meanList (all_results.map WaterBody.chlorophyll) },
   all_results)

/-! ## assemble_json.py -/

/-- `required_hourly_fields` of `validate_data` (line 71). -/
def required_hourly_fields : List String :=
  ["precipitation", "temperature_2m", "relative_humidity_2m",
   "soil_moisture_0_to_1cm", "wind_speed_10m", "evapotranspiration", "time"]

/-- `required_forecast_fields` of `validate_data` (line 83). -/
def required_forecast_fields : List String :=
  ["date", "precipitation_total_mm", "temperature_mean_c",
   "relative_humidity_mean_percent", "soil_moisture_mean_m3_m3",
   "wind_speed_mean_kmh", "evapotranspiration_mean_mm"]

/-- Satellite-domain validity (lines 46-58): false when the pair is absent
or the body list is empty. The summary is always the four-field dict built
by `fetch_water_data`, so the `not satellite_data[0]` emptiness test and the
required-field loop always pass on it. -/
def satValid : Option (Summary × List WaterBody) → Bool
  | none => false
  | some (_, results) => !results.isEmpty

/-- Precipitation-domain validity (lines 60-64): only a `None` estimate
flips validity; `0` is merely logged as a fallback. -/
def precipValid : Option ℚ → Bool
  | none => false
  | some _ => true

/-- Current-weather validation (lines 66-76), on the dict's key set: a
non-dict input is replaced by `{"time": now}` and flagged invalid; for a
dict, each missing required field is appended (with value 0) and flagged
invalid. Returns the validity contribution and the output key list. -/
def validateHourly : Option (List String) → Bool × List String
  | none => (false, ["time"])
  | some keys =>
      (required_hourly_fields.all (fun f => decide (f ∈ keys)),
       keys ++ required_hourly_fields.filter (fun f => !decide (f ∈ keys)))

/-- Per-day forecast validation (lines 84-93): a non-dict day is flagged
invalid and left as is; a dict day has each missing required field appended
(with value 0) and flagged invalid. -/
def validateForecastDay : Option (List String) → Bool × Option (List String)
  | none => (false, none)
  | some keys =>
      (required_forecast_fields.all (fun f => decide (f ∈ keys)),
       some (keys ++ required_forecast_fields.filter (fun f => !decide (f ∈ keys))))

/-- Forecast validation (lines 78-93): a non-list input is replaced by `[]`
and flagged invalid; a list is validated day by day. -/
def validateForecast :
    Option (List (Option (List String))) → Bool × List (Option (List String))
  | none => (false, [])
  | some days =>
      ((days.map validateForecastDay).all (fun p => p.1),
       (days.map validateForecastDay).map (fun p => p.2))

/-- `validate_data` (lines 44-95): the accumulated `valid` flag is the
conjunction of the four per-domain contributions; the (possibly rewritten)
current dict and forecast list are returned alongside it. -/
def validate_data (sat : Option (Summary × List WaterBody)) (precip : Option ℚ)
    (hourly : Option (List String)) (forecast : Option (List (Option (List String)))) :
    Bool × List String × List (Option (List String)) :=
  ((satValid sat && precipValid precip)
     && ((validateHourly hourly).1 && (validateForecast forecast).1),
   (validateHourly hourly).2, (validateForecast forecast).2)

/-- The payload written by `assemble_json` (lines 120-131); the `timestamp`
is the `time` entry of the validated current dict (always present after
validation) and is not tracked separately. `precipitation = none` stands
for the "unavailable" sentinel. -/
structure Payload where
  summary : Summary
  water_bodies : List WaterBody
  precipitation : Option ℚ
  current : List String
  forecast : List (Option (List String))
deriving DecidableEq

/-- `assemble_json` (lines 97-143), parameterized by the results of the two
fetchers: when the satellite fetch yields `None` the function logs an error
and returns `False` without writing any record (modelled as `none`,
lines 103-105); otherwise it validates and emits the payload together with
the validity flag. -/
def assemble_json (sat : Option (Summary × List WaterBody)) (precip : Option ℚ)
    (hourly : Option (List String)) (forecast : Option (List (Option (List String)))) :
    Option (Bool × Payload) :=
  match sat with
  | none => none
  | some (summary, results) =>
      let v := validate_data (some (summary, results)) precip hourly forecast
      some (v.1,
        { summary := summary
        , water_bodies := results
        , precipitation := precip
        , current := v.2.1
        , forecast := v.2.2 })

/-! ## Definitions taken from the specification's words, for comparison -/

/-- Modelled from the spec: "turbidity (mean, clamped to [-1,1])" — the
clamp the specification describes for turbidity. -/
def turbidityClampSpec (m : ℚ) : ℚ :=
  max (-1) (min m 1)

/-- Modelled from the spec: "the arithmetic mean of that series (treating
null/NaN entries as excluded from the mean)" — excluded from numerator and
denominator. -/
def meanExclNaNSpec (series : List (Option ℚ)) : ℚ :=
  meanList (series.filterMap id)

/-- Modelled from the spec: "computes the area-mean over the raster clipped
to the AOI, divides by 24". -/
def chirpsClippedMeanSpec (raster : List (ℚ × Bool)) : ℚ :=
  meanList ((raster.filter Prod.snd).map Prod.fst) / 24

/-! ## Helper lemmas -/

lemma map_getD_of_all_isNone (series : List (Option ℚ))
    (h : series.all (fun v => v.isNone) = true) :
    series.map (fun v => v.getD 0) = List.replicate series.length 0 := by
  induction series with
  | nil => rfl
  | cons a l ih =>
      simp only [List.all_cons, Bool.and_eq_true] at h
      cases a with
      | none => simp [List.replicate_succ, ih h.2]
      | some x => simp at h

lemma substituteNaN_eq_map (series : List (Option ℚ)) :
    substituteNaN series = series.map (fun v => v.getD 0) := by
  unfold substituteNaN
  split_ifs with h
  · exact (map_getD_of_all_isNone series h).symm
  · rfl

lemma sum_map_getD_eq_sum_filterMap (series : List (Option ℚ)) :
    (series.map (fun v => v.getD 0)).sum = (series.filterMap id).sum := by
  induction series with
  | nil => rfl
  | cons a l ih => cases a <;> simp [List.filterMap_cons, ih]

lemma sum_eq_zero_of_all_zero (l : List ℚ)
    (h : l.all (fun v => v = 0) = true) : l.sum = 0 := by
  induction l with
  | nil => rfl
  | cons a t ih =>
      simp only [List.all_cons, Bool.and_eq_true, decide_eq_true_eq] at h
      simp [h.1, ih h.2]

lemma openmeteoHistoricalPrecip_eq_some {series : List (Option ℚ)} {p : List ℚ}
    (h : openmeteoHistoricalPrecip series = some p) :
    p = substituteNaN series := by
  by_cases hc :
      ((substituteNaN series).isEmpty
        || (substituteNaN series).all fun v => decide (v = 0)) = true
  · simp [openmeteoHistoricalPrecip, hc] at h
  · simp only [openmeteoHistoricalPrecip, hc] at h
    simp only [Bool.false_eq_true, if_false, Option.some.injEq] at h
    exact h.symm

lemma openmeteoHistoricalPrecip_eq_none_of_all_zero {series : List (Option ℚ)}
    (h : (substituteNaN series).all (fun v => v = 0) = true) :
    openmeteoHistoricalPrecip series = none := by
  unfold openmeteoHistoricalPrecip
  simp [h]

lemma chirpsLoop_eq_some_of_first (env : Nat → DayOutcome) :
    ∀ (fuel start k : Nat) (r : List (ℚ × Bool)),
      start ≤ k → k < start + fuel →
      (∀ j, start ≤ j → j < k → ∀ s rr, env j = DayOutcome.response s rr → s ≠ 200) →
      env k = DayOutcome.response 200 r →
      chirpsLoop env start fuel = some (chirpsRasterMean r) := by
  intro fuel
  induction fuel with
  | zero => intro start k r h1 h2 _ _; omega
  | succ fuel ih =>
      intro start k r hsk hlt hfail hk
      by_cases hek : start = k
      · subst hek
        simp [chirpsLoop, hk]
      · have hsk2 : start < k := lt_of_le_of_ne hsk hek
        have hrec := ih (start + 1) k r hsk2 (by omega)
          (fun j hj1 hj2 s2 r2 he => hfail j (by omega) hj2 s2 r2 he) hk
        cases henv : env start with
        | response s rr =>
            have hne : s ≠ 200 := hfail start le_rfl hsk2 s rr henv
            simp [chirpsLoop, henv, hne, hrec]
        | exn => simp [chirpsLoop, henv, hrec]

lemma chirpsLoop_eq_none_of_no_success (env : Nat → DayOutcome) :
    ∀ (fuel start : Nat),
      (∀ j, start ≤ j → j < start + fuel → ∀ r, env j ≠ DayOutcome.response 200 r) →
      chirpsLoop env start fuel = none := by
  intro fuel
  induction fuel with
  | zero => intro start _; rfl
  | succ fuel ih =>
      intro start h
      have hrec := ih (start + 1) (fun j h1 h2 r => h j (by omega) (by omega) r)
      cases henv : env start with
      | response s r =>
          have hne : s ≠ 200 := by
            intro hs
            subst hs
            exact h start le_rfl (by omega) r henv
          simp [chirpsLoop, henv, hne, hrec]
      | exn => simp [chirpsLoop, henv, hrec]

lemma pyArgmaxAux_cons (key : Nat → Int) (i : Nat) (l : List Nat) (b : Nat) :
    pyArgmaxAux key (i :: l) b
      = pyArgmaxAux key l (if key b < key i then i else b) := rfl

lemma key_le_pyArgmaxAux (key : Nat → Int) :
    ∀ (l : List Nat) (b : Nat), key b ≤ key (pyArgmaxAux key l b) := by
  intro l
  induction l with
  | nil => intro b; exact le_refl _
  | cons i l ih =>
      intro b
      rw [pyArgmaxAux_cons]
      refine le_trans ?_ (ih _)
      split_ifs with h
      · exact le_of_lt h
      · exact le_refl _

lemma key_mem_le_pyArgmaxAux (key : Nat → Int) :
    ∀ (l : List Nat) (b j : Nat), j ∈ l → key j ≤ key (pyArgmaxAux key l b) := by
  intro l
  induction l with
  | nil => intro b j hj; cases hj
  | cons i l ih =>
      intro b j hj
      rw [pyArgmaxAux_cons]
      rcases List.mem_cons.mp hj with hji | hjl
      · subst hji
        refine le_trans ?_ (key_le_pyArgmaxAux key l _)
        split_ifs with h
        · exact le_refl _
        · exact le_of_not_lt h
      · exact ih _ j hjl

lemma pyArgmaxAux_eq_or_mem (key : Nat → Int) :
    ∀ (l : List Nat) (b : Nat),
      pyArgmaxAux key l b = b ∨ pyArgmaxAux key l b ∈ l := by
  intro l
  induction l with
  | nil => intro b; exact Or.inl rfl
  | cons i l ih =>
      intro b
      rw [pyArgmaxAux_cons]
      rcases ih (if key b < key i then i else b) with h | h
      · rw [h]
        split_ifs with hc
        · exact Or.inr (List.mem_cons_self i l)
        · exact Or.inl rfl
      · exact Or.inr (List.mem_cons_of_mem i h)

lemma pyArgmaxAux_const (key : Nat → Int) :
    ∀ (l : List Nat) (b : Nat),
      (∀ j ∈ l, key j = key b) → pyArgmaxAux key l b = b := by
  intro l
  induction l with
  | nil => intro b _; rfl
  | cons i l ih =>
      intro b h
      rw [pyArgmaxAux_cons]
      have hib : key i = key b := h i (List.mem_cons_self i l)
      rw [if_neg (by rw [hib]; exact lt_irrefl _)]
      exact ih b (fun j hj => h j (List.mem_cons_of_mem i hj))

/-! ## Claim theorems -/

/-- C1, counterexample: with the satellite result `None` while precipitation
is `5.2` and current/forecast are valid, `assemble_json` returns `False`
without emitting any output record, contradicting the claim that a complete
record with zero-body defaults is still emitted. -/
theorem assemble_none_counterexample :
    assemble_json none (some (26 / 5)) (some required_hourly_fields) (some []) = none
    ∧ precipValid (some (26 / 5)) = true
    ∧ (validateHourly (some required_hourly_fields)).1 = true
    ∧ (validateForecast (some [])).1 = true :=
  ⟨rfl, rfl, by decide, rfl⟩

/-- C1, amended: when the satellite fetch degrades to the empty result that
`fetch_water_data` actually produces when every tile fails (zero-body
summary, empty body list), `assemble_json` still emits a complete record
with zero-body defaults, the given precipitation value and overall validity
false; but when the satellite result is `None`, `assemble_json` aborts and
emits no record. -/
theorem assemble_degraded_satellite_emits_record (p : ℚ) (hkeys : List String)
    (fc : List (Option (List String)))
    (_hH : (validateHourly (some hkeys)).1 = true)
    (_hF : (validateForecast (some fc)).1 = true) :
    assemble_json (some (fetch_water_data (List.replicate 4 ([], 0)))) (some p)
        (some hkeys) (some fc)
      = some (false,
          { summary := ⟨0, 0, 0, 0⟩
          , water_bodies := []
          , precipitation := some p
          , current := (validateHourly (some hkeys)).2
          , forecast := (validateForecast (some fc)).2 })
    ∧ assemble_json none (some p) (some hkeys) (some fc) = none :=
  ⟨rfl, rfl⟩

/-- C1, witness for the amended theorem at precipitation `26/5 = 5.2`,
fully-populated current keys and an (vacuously valid) empty forecast. -/
theorem assemble_degraded_satellite_emits_record_witness :
    assemble_json (some (fetch_water_data (List.replicate 4 ([], 0)))) (some (26 / 5))
        (some required_hourly_fields) (some [])
      = some (false,
          { summary := ⟨0, 0, 0, 0⟩
          , water_bodies := []
          , precipitation := some (26 / 5)
          , current := (validateHourly (some required_hourly_fields)).2
          , forecast := (validateForecast (some [])).2 })
    ∧ assemble_json none (some (26 / 5)) (some required_hourly_fields) (some []) = none :=
  assemble_degraded_satellite_emits_record (26 / 5) required_hourly_fields []
    (by decide) rfl

/-- C2, counterexample: with both precipitation tiers exhausted the chain
returns the sentinel `0`, yet `validate_data` run on an otherwise fully
valid record with that sentinel reports overall validity `true`, not
`false`: the sentinel does not flip the validity flag. -/
theorem precip_sentinel_validity_counterexample :
    fetch_climate_data [] none = (0, true)
    ∧ (validate_data (some (⟨1, 100, 0, 0⟩, [⟨"1_1", 100, 0, 0⟩]))
        (some (fetch_climate_data [] none).1)
        (some required_hourly_fields) (some [])).1 = true :=
  ⟨by decide, by decide⟩

/-- C2, amended: when both tiers exhaust, the estimate is the sentinel `0`
(with the secondary tier having been invoked), and validation accepts the
sentinel as valid — only a `None` estimate sets the precipitation validity
contribution to false. -/
theorem precip_both_tiers_exhaust_sentinel_zero (series : List (Option ℚ))
    (hdeg : (substituteNaN series).all (fun v => v = 0) = true) :
    fetch_climate_data series none = (0, true)
    ∧ precipValid (some (fetch_climate_data series none).1) = true
    ∧ precipValid none = false := by
  have hnone := openmeteoHistoricalPrecip_eq_none_of_all_zero hdeg
  unfold fetch_climate_data
  rw [hnone]
  exact ⟨rfl, rfl, rfl⟩

/-- C2, witness at the empty primary series and a CHIRPS tier that also
fails. -/
theorem precip_both_tiers_exhaust_sentinel_zero_witness :
    fetch_climate_data [] none = (0, true)
    ∧ precipValid (some (fetch_climate_data [] none).1) = true
    ∧ precipValid none = false :=
  precip_both_tiers_exhaust_sentinel_zero [] (by decide)

/-- C3, counterexample: a component whose raw turbidity mean is `-2`
reports turbidity `0`, not the `-1` the claimed clamp to `[-1, 1]` would
give. -/
theorem turbidity_clamp_counterexample :
    componentTurbidity (pixelValues [[-2]] [(0, 0)]) = 0
    ∧ turbidityClampSpec (meanOrZero (pixelValues [[-2]] [(0, 0)])) = -1
    ∧ (0 : ℚ) ≠ -1 := by
  refine ⟨?_, ?_, by norm_num⟩
  · norm_num [componentTurbidity, pixelValues, meanOrZero, meanList]
  · norm_num [turbidityClampSpec, pixelValues, meanOrZero, meanList]

/-- C3, amended: the reported chlorophyll is always the zonal mean clamped
to `[0, 100]`; the reported turbidity equals the zonal mean whenever it
lies within `[-1, 1]`, and outside that range it is clamped to `[0, 1]`
instead — a raw mean below `-1` yields `0`, a raw mean above `1` yields
`1`. -/
theorem component_stats_clamp_behavior (vals : List ℚ) :
    componentChlorophyll vals = max 0 (min (meanOrZero vals) 100)
    ∧ componentTurbidity vals
      = (if meanOrZero vals < -1 then 0
         else if 1 < meanOrZero vals then 1 else meanOrZero vals) := by
  constructor
  · simp only [componentChlorophyll]
    split_ifs with h
    · rfl
    · push_neg at h
      rw [min_eq_left h.2, max_eq_right h.1]
  · simp only [componentTurbidity]
    by_cases hlt : meanOrZero vals < -1
    · rw [if_pos (Or.inl hlt), if_pos hlt]
      rw [min_eq_left (by linarith), max_eq_left (by linarith)]
    · by_cases hgt : meanOrZero vals > 1
      · rw [if_pos (Or.inr hgt), if_neg hlt, if_pos hgt]
        rw [min_eq_right (by linarith), max_eq_right (by linarith)]
      · rw [if_neg (by tauto), if_neg hlt, if_neg hgt]

/-- C3, witness: the amended clamp behavior evaluated at a one-pixel
component with raw turbidity `-2`. -/
theorem component_stats_clamp_behavior_witness :
    componentTurbidity [-2]
      = (if meanOrZero [-2] < -1 then 0
         else if 1 < meanOrZero [-2] then 1 else meanOrZero [-2]) :=
  (component_stats_clamp_behavior [-2]).2

/-- C4: a primary-tier precipitation series that is empty or all-zero makes
`fetch_climate_data` invoke the secondary CHIRPS tier, and a primary-tier
series with a non-zero mean makes the secondary tier never invoked. -/
theorem precip_fallback_chain_tiers (series : List (Option ℚ)) (chirps : Option ℚ) :
    ((substituteNaN series).all (fun v => v = 0) = true →
        (fetch_climate_data series chirps).2 = true)
    ∧ (meanList (substituteNaN series) ≠ 0 →
        (fetch_climate_data series chirps).2 = false) := by
  constructor
  · intro hdeg
    have hnone := openmeteoHistoricalPrecip_eq_none_of_all_zero hdeg
    unfold fetch_climate_data
    rw [hnone]
    cases chirps <;> rfl
  · intro hmean
    have hcond :
        ¬ ((substituteNaN series).isEmpty
            || (substituteNaN series).all fun v => decide (v = 0)) = true := by
      intro hc
      apply hmean
      rcases Bool.or_eq_true _ _ |>.mp hc with hemp | hall
      · rw [List.isEmpty_iff.mp hemp]
        simp [meanList]
      · unfold meanList
        rw [sum_eq_zero_of_all_zero _ hall, zero_div]
    have hsome : openmeteoHistoricalPrecip series = some (substituteNaN series) := by
      simp only [openmeteoHistoricalPrecip]
      rw [if_neg hcond]
    unfold fetch_climate_data
    rw [hsome]

/-- C4, witness: the empty series invokes CHIRPS; the series `[1]` (mean 1)
does not. -/
theorem precip_fallback_chain_tiers_witness :
    (fetch_climate_data [] none).2 = true
    ∧ (fetch_climate_data [some 1] none).2 = false :=
  ⟨(precip_fallback_chain_tiers [] none).1 (by decide),
   (precip_fallback_chain_tiers [some 1] none).2
     (by norm_num [substituteNaN, meanList])⟩

/-- C5, counterexample: for the primary series `[2, NaN]` the code
substitutes `0` for the NaN and returns the mean `(2 + 0) / 2 = 1`, whereas
the claimed NaN-excluding mean over `[2]` is `2`. -/
theorem nan_mean_counterexample :
    fetch_climate_data [some 2, none] none = (1, false)
    ∧ meanExclNaNSpec [some 2, none] = 2
    ∧ (1 : ℚ) ≠ 2 := by
  refine ⟨?_, ?_, by norm_num⟩
  · norm_num [fetch_climate_data, openmeteoHistoricalPrecip, substituteNaN, meanList]
  · norm_num [meanExclNaNSpec, meanList, List.filterMap_cons]

/-- C5, amended: for a non-degenerate primary series the estimate is the
sum of the non-null entries divided by the TOTAL series length (null/NaN
entries are replaced by 0, so they stay in the denominator), and a
degenerate (empty or all-zero) series makes tier 1 fail, invoking the
secondary tier instead of yielding a successful 0 estimate. -/
theorem primary_estimate_nan_as_zero (series : List (Option ℚ)) (chirps : Option ℚ) :
    (∀ p, openmeteoHistoricalPrecip series = some p →
        (fetch_climate_data series chirps).1
          = (series.filterMap id).sum / (series.length : ℚ))
    ∧ ((substituteNaN series).all (fun v => v = 0) = true →
        (fetch_climate_data series chirps).2 = true) := by
  constructor
  · intro p hp
    unfold fetch_climate_data
    rw [hp]
    have hsub := openmeteoHistoricalPrecip_eq_some hp
    simp only
    rw [hsub, substituteNaN_eq_map]
    unfold meanList
    rw [sum_map_getD_eq_sum_filterMap, List.length_map]
  · intro hdeg
    have hnone := openmeteoHistoricalPrecip_eq_none_of_all_zero hdeg
    unfold fetch_climate_data
    rw [hnone]
    cases chirps <;> rfl

/-- C5, witness: on `[2, NaN]` the estimate is `2 / 2`, and the empty series
fails over to the secondary tier. -/
theorem primary_estimate_nan_as_zero_witness :
    (fetch_climate_data [some 2, none] none).1
      = (([some 2, none] : List (Option ℚ)).filterMap id).sum
          / (([some 2, none] : List (Option ℚ)).length : ℚ)
    ∧ (fetch_climate_data [] none).2 = true :=
  ⟨(primary_estimate_nan_as_zero [some 2, none] none).1 [2, 0] (by decide),
   (primary_estimate_nan_as_zero [] none).2 (by decide)⟩

/-- C6, counterexample: on the first successful download the code returns
the mean of the ENTIRE raster divided by 24 (here `(24 + 72) / 2 / 24 = 2`),
not the claimed AOI-clipped mean divided by 24 (here `24 / 1 / 24 = 1`). -/
theorem chirps_no_clip_counterexample :
    fetch_chirps_data
        (fun k => if k = 0 then DayOutcome.response 200 [(24, true), (72, false)]
                  else DayOutcome.exn)
      = some 2
    ∧ chirpsClippedMeanSpec [(24, true), (72, false)] = 1
    ∧ (2 : ℚ) ≠ 1 := by
  refine ⟨?_, ?_, by norm_num⟩
  · norm_num [fetch_chirps_data, chirpsLoop, chirpsRasterMean, meanList]
  · norm_num [chirpsClippedMeanSpec, meanList]

/-- C6, amended: the secondary tier walks backward day-by-day for at most
30 attempts; the first day whose download succeeds (status 200) immediately
returns the mean of the ENTIRE downloaded raster divided by 24 (no AOI
clipping), while non-200 responses and exceptions are logged and the walk
continues; if no attempt succeeds within the 30-day window it returns
`None`. -/
theorem chirps_walk_first_success (env : Nat → DayOutcome) :
    (∀ k r, k < 30 →
        (∀ j, j < k → ∀ s rr, env j = DayOutcome.response s rr → s ≠ 200) →
        env k = DayOutcome.response 200 r →
        fetch_chirps_data env = some (chirpsRasterMean r))
    ∧ ((∀ j, j < 30 → ∀ r, env j ≠ DayOutcome.response 200 r) →
        fetch_chirps_data env = none) := by
  constructor
  · intro k r hk hfail hsucc
    exact chirpsLoop_eq_some_of_first env 30 0 k r (Nat.zero_le k) (by omega)
      (fun j _ hj2 s rr he => hfail j hj2 s rr he) hsucc
  · intro h
    exact chirpsLoop_eq_none_of_no_success env 30 0 (fun j _ hj2 r => h j (by omega) r)

/-- C6, witness: day 0 answers 404, day 1 succeeds with a one-cell raster
of value 48, so the walk returns `48 / 24 = 2` at the second attempt. -/
theorem chirps_walk_first_success_witness :
    fetch_chirps_data
        (fun k => if k = 0 then DayOutcome.response 404 []
                  else if k = 1 then DayOutcome.response 200 [(48, true)]
                  else DayOutcome.exn)
      = some 2 := by
  have h := (chirps_walk_first_success
      (fun k => if k = 0 then DayOutcome.response 404 []
                else if k = 1 then DayOutcome.response 200 [(48, true)]
                else DayOutcome.exn)).1 1 [(48, true)] (by omega)
      (fun j hj s rr he => by
        have hj0 : j = 0 := by omega
        subst hj0
        simp only [if_pos rfl] at he
        cases he
        omega)
      (by simp)
  rw [h]
  norm_num [chirpsRasterMean, meanList]

/-- C8, counterexample: a non-dict (sentinel) current-weather input is
replaced by a record holding only the `time` key, so required fields such
as `precipitation` are absent from the output record, contrary to the
claim that every required field is present after normalization. -/
theorem current_sentinel_missing_fields_counterexample :
    (assemble_json (some (⟨1, 100, 0, 0⟩, [⟨"1_1", 100, 0, 0⟩])) (some 1) none
        (some [])).map (fun r => r.2.current) = some ["time"]
    ∧ decide ("precipitation" ∈ (["time"] : List String)) = false :=
  ⟨rfl, by decide⟩

/-- C8, amended: when the current-weather input is a dict, every required
field is present after normalization (missing ones are appended with
default 0); when it is not a dict, it is replaced by a record containing
only the timestamp, with none of the weather fields. -/
theorem current_dict_fields_defaulted :
    (∀ keys : List String,
        required_hourly_fields.all
          (fun f => decide (f ∈ (validateHourly (some keys)).2)) = true)
    ∧ (validateHourly none).2 = ["time"] := by
  refine ⟨fun keys => ?_, rfl⟩
  simp only [List.all_eq_true, decide_eq_true_eq]
  intro f hf
  simp only [validateHourly, List.mem_append]
  by_cases h : f ∈ keys
  · exact Or.inl h
  · exact Or.inr (List.mem_filter.mpr ⟨hf, by simp [h]⟩)

/-- C8, witness: the amended field-completeness evaluated at an empty input
dict. -/
theorem current_dict_fields_defaulted_witness :
    required_hourly_fields.all
      (fun f => decide (f ∈ (validateHourly (some [])).2)) = true :=
  current_dict_fields_defaulted.1 []

/-- C9 (code bug): whenever all three cached TIFF files exist, the cache
condition applies Python's `all` to the single boolean conjunction of the
three validations and raises `TypeError` outside any `try` block, so the
cache branch is unreachable for every validation outcome and the cached
re-run the claim describes crashes instead of reproducing its results. -/
theorem cache_condition_type_error :
    (∀ vM vT vC : Bool,
        cacheCondition true vM vT vC
          = Except.error "TypeError: bool object is not iterable")
    ∧ ∀ fe vM vT vC : Bool, cacheCondition fe vM vT vC ≠ Except.ok true := by
  refine ⟨fun vM vT vC => rfl, fun fe vM vT vC => ?_⟩
  cases fe <;> simp [cacheCondition, pyAllOfBool]

/-- C9, witness: the cache condition evaluated with all files present and
all validations passing still raises. -/
theorem cache_condition_type_error_witness :
    cacheCondition true true true true
      = Except.error "TypeError: bool object is not iterable" :=
  cache_condition_type_error.1 true true true

/-- C10: the module-level imports of fetch_climate.py never bind the name
`requests`, so every per-day CHIRPS attempt raises `NameError` inside the
`try` block, the download-success branch is unreachable, and
`fetch_chirps_data` returns `None` on every execution regardless of what
the network would have answered. -/
theorem chirps_always_none_missing_import :
    fetch_climate_global_names.contains "requests" = false
    ∧ ∀ env : Nat → DayOutcome, fetch_chirps_data_actual env = none := by
  refine ⟨by decide, fun env => ?_⟩
  unfold fetch_chirps_data_actual
  apply chirpsLoop_eq_none_of_no_success
  intro j _ _ r
  unfold dayAttemptActual
  rw [show fetch_climate_global_names.contains "requests" = false from by decide]
  simp

/-- C10, witness: even an environment in which every attempt would raise
anyway yields `None`. -/
theorem chirps_always_none_missing_import_witness :
    fetch_chirps_data_actual (fun _ => DayOutcome.exn) = none :=
  chirps_always_none_missing_import.2 (fun _ => DayOutcome.exn)

/-- C7: for a non-empty (sorted, as produced by `pd.date_range`) time
series whose timestamps all exceed `datetime.min`, the current-sample
selection picks the sample whose timestamp is the latest one not after
`now` when one exists, and otherwise falls back to index 0, the
minimum-timestamp sample — so a sample is always selected. -/
theorem current_selection_latest_not_after_now (times : List Int) (now : Int)
    (hne : times ≠ [])
    (hsort : List.Sorted (· ≤ ·) times)
    (hmin : ∀ t ∈ times, dtMinInt < t) :
    ((∃ t ∈ times, t ≤ now) →
        times.getD (currentSelect times now) 0 ≤ now
        ∧ ∀ t ∈ times, t ≤ now → t ≤ times.getD (currentSelect times now) 0)
    ∧ ((∀ t ∈ times, now < t) →
        currentSelect times now = 0 ∧ ∀ t ∈ times, times.getD 0 0 ≤ t) := by
  have hn : 0 < times.length := List.length_pos.mpr hne
  constructor
  · rintro ⟨t0, ht0m, ht0le⟩
    obtain ⟨j, hj, hjt⟩ := List.mem_iff_getElem.mp ht0m
    have hilt : currentSelect times now < times.length := by
      unfold currentSelect pyArgmax
      rcases pyArgmaxAux_eq_or_mem (currentKey times now)
          (List.range times.length) 0 with h | h
      · rw [h]; exact hn
      · exact List.mem_range.mp h
    have hkeyj : currentKey times now j = t0 := by
      unfold currentKey
      rw [List.getD_eq_getElem _ _ hj, hjt, if_pos ht0le]
    have hkle : currentKey times now j
        ≤ currentKey times now (currentSelect times now) := by
      unfold currentSelect pyArgmax
      exact key_mem_le_pyArgmaxAux _ _ 0 j (List.mem_range.mpr hj)
    have hdt : dtMinInt < currentKey times now (currentSelect times now) :=
      lt_of_lt_of_le (hmin t0 ht0m) (hkeyj ▸ hkle)
    have htsel_le : times.getD (currentSelect times now) 0 ≤ now := by
      by_contra hc
      have hkd : currentKey times now (currentSelect times now) = dtMinInt := by
        unfold currentKey
        rw [if_neg hc]
      rw [hkd] at hdt
      exact lt_irrefl _ hdt
    have hkeysel : currentKey times now (currentSelect times now)
        = times.getD (currentSelect times now) 0 := by
      unfold currentKey
      rw [if_pos htsel_le]
    refine ⟨htsel_le, fun t ht htle => ?_⟩
    obtain ⟨m, hm, hmt⟩ := List.mem_iff_getElem.mp ht
    have hkm : currentKey times now m = t := by
      unfold currentKey
      rw [List.getD_eq_getElem _ _ hm, hmt, if_pos htle]
    rw [← hkm, ← hkeysel]
    unfold currentSelect pyArgmax
    exact key_mem_le_pyArgmaxAux _ _ 0 m (List.mem_range.mpr hm)
  · intro hall
    have hkeyall : ∀ j ∈ List.range times.length,
        currentKey times now j = currentKey times now 0 := by
      intro j hj
      rw [List.mem_range] at hj
      have h1 : times.getD j 0 ∈ times := by
        rw [List.getD_eq_getElem _ _ hj]
        exact List.getElem_mem hj
      have h2 : times.getD 0 0 ∈ times := by
        rw [List.getD_eq_getElem _ _ hn]
        exact List.getElem_mem hn
      unfold currentKey
      rw [if_neg (not_le.mpr (hall _ h1)), if_neg (not_le.mpr (hall _ h2))]
    refine ⟨?_, ?_⟩
    · unfold currentSelect pyArgmax
      exact pyArgmaxAux_const _ _ 0 hkeyall
    · cases times with
      | nil => exact absurd rfl hne
      | cons a l =>
          intro t ht
          rcases List.mem_cons.mp ht with h | h
          · subst h
            exact le_refl _
          · exact (List.sorted_cons.mp hsort).1 t h

/-- C7, witness: with timestamps two hours before, one hour before, and one
hour after `now = 0`, the selected sample is the one at `-3600` — the
latest not after now. -/
theorem current_selection_latest_not_after_now_witness :
    ([-7200, -3600, 3600] : List Int).getD (currentSelect [-7200, -3600, 3600] 0) 0
      = -3600
    ∧ ([-7200, -3600, 3600] : List Int).getD (currentSelect [-7200, -3600, 3600] 0) 0
      ≤ 0 :=
  ⟨by decide,
   ((current_selection_latest_not_after_now [-7200, -3600, 3600] 0 (by decide)
      (by decide) (by decide)).1 ⟨-3600, by decide, by decide⟩).1⟩

end SatellitePull
